import Mathlib

/-!
Shallow embedding of the kinopio-tui navigation core (src/main.go).

The program is a Bubble Tea terminal UI.  Its core is the `Update` method of
`model` (main.go lines 56-155): a dispatcher that consumes one message (a key
press, a fetch completion, a fetch failure, or a resize) and mutates the
navigation state.  We embed that dispatcher as a pure function
`update : Model → Msg → Model × List Cmd`, where the returned command list
records the repository-level effects the dispatcher requests (quit, fetch the
space list, fetch one space's details).  Widget-internal effects of the
rendering toolkit (spinner tick commands, list pagination, table redraws,
`list.SetSize`) touch none of the navigation fields and issue no repository
request; they are outside the embedded state.

The two asynchronous fetch commands (main.go `fetchSpaces` lines 255-295 and
`fetchSpaceDetails` lines 297-337) are embedded as functions of their external
inputs: the credential environment variable, the HTTP response (or transport
error), and the JSON decode result.  `getAPIKey` (lines 339-346) prints
"API key is not set" with `fmt.Println` — that is, to standard output — and
calls `os.Exit(1)`; we model that observable outcome as an `ExitAction` value.
-/

namespace Kinopio

/-- Card entity (main.go lines 29-35). Go zero values: empty strings, 0. -/
structure Card where
  id : String
  name : String
  x : Int
  y : Int
  backgroundColor : String
deriving DecidableEq, Repr

/-- Box entity (main.go lines 37-40). -/
structure Box where
  id : String
  name : String
deriving DecidableEq, Repr

/-- Space entity (main.go lines 42-48). -/
structure Space where
  id : String
  name : String
  url : String
  cards : List Card
  boxes : List Box
deriving DecidableEq, Repr

/-- A row item held by the list widget.  The Go code stores three concrete
item types (`listItem` wrapping a Space, `detailListItem` with a title and a
description string, `cardListItem` wrapping a Card) behind the `list.Item`
interface and recovers them by type assertion; we embed them as a sum. -/
inductive Item where
  | spaceItem (space : Space)
  | detailItem (title description : String)
  | cardItem (card : Card)
deriving DecidableEq, Repr

/-- Primary label of a row item (the `Title()` methods, main.go lines 223,
234, 242). -/
def Item.title : Item → String
  | Item.spaceItem space => space.name
  | Item.detailItem t _ => t
  | Item.cardItem card => card.name

/-- Secondary label of a row item (the `Description()` methods, main.go lines
224-226, 235, 243-245).  A card's description is `fmt.Sprintf("(%d, %d)", x, y)`. -/
def Item.descr : Item → String
  | Item.spaceItem space => "https://kinopio.club/" ++ space.url
  | Item.detailItem _ d => d
  | Item.cardItem card => "(" ++ toString card.x ++ ", " ++ toString card.y ++ ")"

/-- Navigation state: the fields of `model` (main.go lines 17-27) that the
dispatcher reads or writes, plus the list widget's item list, selection index
and title, which the dispatcher itself sets.  `err` is Go's `error` field
(`nil` = `none`); `currentView` is the Go string tag. -/
structure Model where
  items : List Item
  cursor : Nat
  listTitle : String
  err : Option String
  loading : Bool
  currentView : String
  spaces : List Space
  selectedSpace : Space
  selectedCard : Card
deriving DecidableEq, Repr

/-- Messages consumed by `Update` (main.go lines 59-135).  `tick` stands for
any message the switch does not name (such as the spinner's tick), which falls
through to the widget updates and changes no navigation field. -/
inductive Msg where
  | spacesMsg (spaces : List Space)
  | spaceDetailsMsg (space : Space)
  | errMsg (e : String)
  | windowSize (w h : Int)
  | key (k : String)
  | tick
deriving DecidableEq, Repr

/-- Repository-level commands the dispatcher can request. -/
inductive Cmd where
  | quit
  | fetchSpaces
  | fetchSpaceDetails (id : String)
deriving DecidableEq, Repr

/-- Space rows for the list view (the loops at main.go lines 62-65 and
114-117). -/
def spaceItems (spaces : List Space) : List Item :=
  spaces.map Item.spaceItem

/-- The two fixed rows of the details view (main.go lines 73-76 and 122-125):
titles "Cards"/"Boxes", descriptions `fmt.Sprintf("%d cards", …)` and
`fmt.Sprintf("%d boxes", …)`. -/
def detailItems (space : Space) : List Item :=
  [Item.detailItem "Cards" (toString space.cards.length ++ " cards"),
   Item.detailItem "Boxes" (toString space.boxes.length ++ " boxes")]

/-- Card rows for the cards view (the loops at main.go lines 97-100 and
129-132). -/
def cardItems (space : Space) : List Item :=
  space.cards.map Item.cardItem

/-- The `tea.KeyMsg` case of `Update` (main.go lines 83-135).  The selected
item is the row at the widget's current index (`m.list.SelectedItem()`); a
failed type assertion or an out-of-range index is a no-op. -/
def updateKey (m : Model) (k : String) : Model × List Cmd :=
  if k = "ctrl+c" ∨ k = "q" then
    (m, [Cmd.quit])
  else if k = "enter" then
    if m.currentView = "list" then
      match m.items[m.cursor]? with
      | some (Item.spaceItem space) =>
          ({ m with loading := true }, [Cmd.fetchSpaceDetails space.id])
      | _ => (m, [])
    else if m.currentView = "details" then
      match m.items[m.cursor]? with
      | some (Item.detailItem t _) =>
          if t = "Cards" then
            ({ m with currentView := "cards",
                      listTitle := m.selectedSpace.name ++ " → Cards",
                      items := cardItems m.selectedSpace }, [])
          else (m, [])
      | _ => (m, [])
    else if m.currentView = "cards" then
      match m.items[m.cursor]? with
      | some (Item.cardItem card) =>
          ({ m with selectedCard := card, currentView := "cardDetails" }, [])
      | _ => (m, [])
    else (m, [])
  else if k = "b" then
    if m.currentView = "details" then
      ({ m with currentView := "list", listTitle := "Spaces",
                items := spaceItems m.spaces }, [])
    else if m.currentView = "cards" then
      ({ m with currentView := "details", listTitle := m.selectedSpace.name,
                items := detailItems m.selectedSpace }, [])
    else if m.currentView = "cardDetails" then
      ({ m with currentView := "cards", items := cardItems m.selectedSpace }, [])
    else (m, [])
  else (m, [])

/-- The dispatcher `Update` (main.go lines 56-155), restricted to the
navigation state and repository commands. -/
def update (m : Model) (msg : Msg) : Model × List Cmd :=
  match msg with
  | Msg.spacesMsg spaces =>
      ({ m with spaces := spaces, items := spaceItems spaces, loading := false }, [])
  | Msg.spaceDetailsMsg space =>
      ({ m with selectedSpace := space, loading := false, currentView := "details",
                listTitle := space.name, items := detailItems space }, [])
  | Msg.errMsg e =>
      ({ m with err := some e, loading := false }, [])
  | Msg.windowSize _ _ => (m, [])
  | Msg.key k => updateKey m k
  | Msg.tick => (m, [])

/-- Go zero value of `Card`. -/
def emptyCard : Card :=
  { id := "", name := "", x := 0, y := 0, backgroundColor := "" }

/-- Go zero value of `Space`. -/
def emptySpace : Space :=
  { id := "", name := "", url := "", cards := [], boxes := [] }

/-- The model right after `main` built it (list title "Spaces", empty items,
main.go lines 348-360) and `Init` ran (loading := true, currentView := "list",
main.go lines 50-54). -/
def initModel : Model :=
  { items := [], cursor := 0, listTitle := "Spaces", err := none,
    loading := true, currentView := "list", spaces := [],
    selectedSpace := emptySpace, selectedCard := emptyCard }

/-- `Init` (main.go lines 50-54): the initial state plus the commands it
returns.  At the repository level the batch `fetchSpaces(), spinner.Tick`
contains the one fetch command; the spinner tick is widget-internal. -/
def initStep : Model × List Cmd :=
  (initModel, [Cmd.fetchSpaces])

/-- Observable outcome of `os.Exit` preceded by a diagnostic print:
`getAPIKey` (main.go lines 339-346) prints with `fmt.Println`, which writes to
the process's standard output stream, then exits with status 1. -/
structure ExitAction where
  code : Nat
  stream : String
  message : String
deriving DecidableEq, Repr

/-- `getAPIKey` (main.go lines 339-346): `os.Getenv` yields the empty string
when the variable is unset; in that case the program prints
"API key is not set" to standard output and exits with status 1. -/
def getAPIKey (env : String) : Except ExitAction String :=
  if env = "" then
    Except.error { code := 1, stream := "stdout", message := "API key is not set" }
  else
    Except.ok env

/-- An HTTP response as the fetch commands observe it: numeric status code,
status line, raw body, and `jsonPretty` — the result of `json.Unmarshal` on
the body followed by `json.MarshalIndent` (`none` when the body is not a JSON
object; the marshalling itself is external library code). -/
structure HttpResponse where
  statusCode : Nat
  status : String
  body : String
  jsonPretty : Option String
deriving DecidableEq, Repr

/-- The non-200 error message of `fetchSpaces` (main.go lines 278-286). -/
def spacesFailureMsg (resp : HttpResponse) : String :=
  match resp.jsonPretty with
  | none => "failed to fetch spaces: " ++ resp.status ++ "\nResponse body: " ++ resp.body
  | some d => "failed to fetch spaces: " ++ resp.status ++ "\nError details:\n" ++ d

/-- The non-200 error message of `fetchSpaceDetails` (main.go lines 320-328). -/
def spaceDetailsFailureMsg (resp : HttpResponse) : String :=
  match resp.jsonPretty with
  | none => "failed to fetch space details: " ++ resp.status ++ "\nResponse body: " ++ resp.body
  | some d => "failed to fetch space details: " ++ resp.status ++ "\nError details:\n" ++ d

/-- Execution of the `fetchSpaces` command (main.go lines 255-295) as a
function of its external inputs: the credential environment variable, the
transport result (`client.Do`), and the JSON decode of a 200 body.  The
credential check runs first, inside this command — not in `main`. -/
def fetchSpacesRun (env : String) (net : Except String HttpResponse)
    (decoded : Except String (List Space)) : Except ExitAction Msg :=
  match getAPIKey env with
  | Except.error a => Except.error a
  | Except.ok _ =>
    match net with
    | Except.error e => Except.ok (Msg.errMsg ("error performing request: " ++ e))
    | Except.ok resp =>
      if resp.statusCode ≠ 200 then
        Except.ok (Msg.errMsg (spacesFailureMsg resp))
      else
        match decoded with
        | Except.error e => Except.ok (Msg.errMsg ("error unmarshaling response: " ++ e))
        | Except.ok spaces => Except.ok (Msg.spacesMsg spaces)

/-- Execution of the `fetchSpaceDetails` command (main.go lines 297-337),
analogous to `fetchSpacesRun`; the space id only selects the request URL. -/
def fetchSpaceDetailsRun (_spaceID : String) (env : String)
    (net : Except String HttpResponse) (decoded : Except String Space) :
    Except ExitAction Msg :=
  match getAPIKey env with
  | Except.error a => Except.error a
  | Except.ok _ =>
    match net with
    | Except.error e => Except.ok (Msg.errMsg ("error performing request: " ++ e))
    | Except.ok resp =>
      if resp.statusCode ≠ 200 then
        Except.ok (Msg.errMsg (spaceDetailsFailureMsg resp))
      else
        match decoded with
        | Except.error e => Except.ok (Msg.errMsg ("error unmarshaling space details: " ++ e))
        | Except.ok space => Except.ok (Msg.spaceDetailsMsg space)

/-- Concrete fixture: a space with no cards. -/
def spaceA : Space :=
  { id := "a-id", name := "Alpha", url := "alpha", cards := [], boxes := [] }

/-- Concrete fixture: one card at (10, 20). -/
def cardNote : Card :=
  { id := "c1", name := "Note", x := 10, y := 20, backgroundColor := "" }

/-- Concrete fixture: a space with one card and no boxes. -/
def spaceBeta : Space :=
  { id := "beta-id", name := "Beta", url := "beta", cards := [cardNote], boxes := [] }

/-- Concrete fixture: the list view after a successful space-list fetch. -/
def mList : Model :=
  { initModel with loading := false, spaces := [spaceA], items := spaceItems [spaceA] }

/-- Concrete fixture: the details view for `spaceBeta`. -/
def mDetails : Model :=
  { mList with currentView := "details", selectedSpace := spaceBeta,
               listTitle := "Beta", items := detailItems spaceBeta }

/-- Concrete fixture: the cards view for `spaceBeta`. -/
def mCards : Model :=
  { mDetails with currentView := "cards", listTitle := "Beta → Cards",
                  items := cardItems spaceBeta }

/-- Concrete fixture: the card-details view for `cardNote`. -/
def mCardDetails : Model :=
  { mCards with currentView := "cardDetails", selectedCard := cardNote }

/-- Concrete fixture: the list view with a stored error banner. -/
def mErrState : Model :=
  { mList with err := some "boom" }

/-- Concrete fixture: a 404 response whose body is not a JSON object. -/
def resp404 : HttpResponse :=
  { statusCode := 404, status := "404 Not Found", body := "not found", jsonPretty := none }

/-- Concrete fixture: a 200 response. -/
def resp200 : HttpResponse :=
  { statusCode := 200, status := "200 OK", body := "[]", jsonPretty := none }

theorem updateKey_err (m : Model) (k : String) : ((updateKey m k).1).err = m.err := by
  unfold updateKey
  repeat' split
  all_goals rfl

theorem updateKey_cmds (m : Model) (k : String) :
    (updateKey m k).2 = []
  ∨ ((updateKey m k).2 = [Cmd.quit] ∧ (k = "ctrl+c" ∨ k = "q"))
  ∨ ∃ space, (updateKey m k).2 = [Cmd.fetchSpaceDetails space.id]
      ∧ k = "enter" ∧ m.currentView = "list"
      ∧ m.items[m.cursor]? = some (Item.spaceItem space) := by
  unfold updateKey
  repeat' split
  all_goals simp_all

/-- C3 (amended): `err` is written only by a fetch-failure event; every other
event — including the fetch-starting select — leaves it exactly as it was, so
once set it persists forever (the code never clears it). -/
theorem C3_err_never_cleared (m : Model) (msg : Msg) :
    ((update m msg).1).err =
      match msg with
      | Msg.errMsg e => some e
      | _ => m.err := by
  cases msg with
  | key k => exact updateKey_err m k
  | spacesMsg spaces => rfl
  | spaceDetailsMsg space => rfl
  | errMsg e => rfl
  | windowSize w h => rfl
  | tick => rfl

/-- C3 counterexample: from a reachable list-view state with `err` set,
pressing enter on a valid row starts a new fetch, yet `err` is not cleared by
that fetch-starting event. -/
theorem C3_counterexample :
    (update mErrState (Msg.key "enter")).2 = [Cmd.fetchSpaceDetails "a-id"]
  ∧ ((update mErrState (Msg.key "enter")).1).err = some "boom" := by decide

/-- C9: a detail fetch-success event unconditionally moves the view to the
details view, overwrites `selectedSpace` with the payload, and clears
`loading`, whatever view the user is currently in — so a stale detail
response arriving in the list, cards or card-details view lands the user in
the details view with the stale space selected. -/
theorem C9_detail_success_unconditional (m : Model) (space : Space) :
    ((update m (Msg.spaceDetailsMsg space)).1).currentView = "details"
  ∧ ((update m (Msg.spaceDetailsMsg space)).1).selectedSpace = space
  ∧ ((update m (Msg.spaceDetailsMsg space)).1).loading = false
  ∧ (update m (Msg.spaceDetailsMsg space)).2 = [] :=
  ⟨rfl, rfl, rfl, rfl⟩

/-- C7: in the list view the back key is a no-op on the whole embedded state
(view, spaces, selections, loading, error all unchanged), and so is any
number of repeated presses. -/
theorem C7_back_noop (m : Model) (h : m.currentView = "list") (n : Nat) :
    (fun s => (update s (Msg.key "b")).1)^[n] m = m := by
  apply Function.iterate_fixed
  simp [update, updateKey, h]

/-- C7 witness: three back presses from the initial state change nothing. -/
theorem C7_back_noop_witness :
    (fun s => (update s (Msg.key "b")).1)^[3] initModel = initModel :=
  C7_back_noop initModel rfl 3

/-- C5: a non-200 response makes the detail fetch return a failure message
carrying the HTTP status line, and the dispatcher's handling of a
fetch-failure event sets `err`, clears `loading`, and leaves the current view
(and commands) untouched — it never advances into the target view. -/
theorem C5_fetch_failure_keeps_view (m : Model) (sid env : String)
    (resp : HttpResponse) (decoded : Except String Space)
    (hkey : env ≠ "") (hstatus : resp.statusCode ≠ 200) :
    (∃ rest, fetchSpaceDetailsRun sid env (Except.ok resp) decoded
        = Except.ok (Msg.errMsg ("failed to fetch space details: " ++ (resp.status ++ rest))))
  ∧ ∀ e, ((update m (Msg.errMsg e)).1).currentView = m.currentView
      ∧ ((update m (Msg.errMsg e)).1).err = some e
      ∧ ((update m (Msg.errMsg e)).1).loading = false
      ∧ (update m (Msg.errMsg e)).2 = [] := by
  constructor
  · unfold fetchSpaceDetailsRun getAPIKey
    rw [if_neg hkey]
    simp only [hstatus, ne_eq, not_false_iff, if_true, ite_true]
    cases hj : resp.jsonPretty with
    | none =>
        exact ⟨"\nResponse body: " ++ resp.body,
          by simp [spaceDetailsFailureMsg, hj, hstatus, String.append_assoc]⟩
    | some d =>
        exact ⟨"\nError details:\n" ++ d,
          by simp [spaceDetailsFailureMsg, hj, hstatus, String.append_assoc]⟩
  · intro e
    exact ⟨rfl, rfl, rfl, rfl⟩

/-- C5 witness at a concrete 404 response. -/
theorem C5_fetch_failure_witness :
    (∃ rest, fetchSpaceDetailsRun "beta-id" "key" (Except.ok resp404) (Except.error "x")
        = Except.ok (Msg.errMsg ("failed to fetch space details: " ++ (resp404.status ++ rest))))
  ∧ ∀ e, ((update mList (Msg.errMsg e)).1).currentView = mList.currentView
      ∧ ((update mList (Msg.errMsg e)).1).err = some e
      ∧ ((update mList (Msg.errMsg e)).1).loading = false
      ∧ (update mList (Msg.errMsg e)).2 = [] :=
  C5_fetch_failure_keeps_view mList "beta-id" "key" resp404 (Except.error "x")
    (by decide) (by decide)

/-- C1 counterexample: in the list view with `spaceA` on row 0, enter starts
the detail fetch but the immediate state is still the list view and
`selectedSpace` is still the zero value, not `spaceA` — the view change is
not an immediate effect of the select event. -/
theorem C1_counterexample :
    ((update mList (Msg.key "enter")).1).currentView ≠ "details"
  ∧ ((update mList (Msg.key "enter")).1).selectedSpace ≠ spaceA
  ∧ (update mList (Msg.key "enter")).2 = [Cmd.fetchSpaceDetails "a-id"] := by
  decide

/-- C1 (amended): enter on row i of the list view only sets `loading := true`
and issues the detail fetch for `spaces[i].id`; the move to the details view
with the fetched space selected happens when the success message is
dispatched later. -/
theorem C1_select_starts_fetch (m : Model) (hview : m.currentView = "list")
    (hitems : m.items = spaceItems m.spaces) (hi : m.cursor < m.spaces.length) :
    (update m (Msg.key "enter")
      = ({ m with loading := true }, [Cmd.fetchSpaceDetails (m.spaces[m.cursor]).id]))
  ∧ ∀ detail,
      ((update { m with loading := true } (Msg.spaceDetailsMsg detail)).1).currentView = "details"
      ∧ ((update { m with loading := true } (Msg.spaceDetailsMsg detail)).1).selectedSpace = detail
      ∧ ((update { m with loading := true } (Msg.spaceDetailsMsg detail)).1).loading = false := by
  constructor
  · have hget : m.items[m.cursor]? = some (Item.spaceItem m.spaces[m.cursor]) := by
      rw [hitems]
      simp [spaceItems, List.getElem?_eq_getElem, hi]
    simp [update, updateKey, hview, hget]
  · intro detail
    exact ⟨rfl, rfl, rfl⟩

/-- C1 witness at the concrete one-space list view. -/
theorem C1_select_starts_fetch_witness :
    (update mList (Msg.key "enter")
      = ({ mList with loading := true }, [Cmd.fetchSpaceDetails "a-id"]))
  ∧ ∀ detail,
      ((update { mList with loading := true } (Msg.spaceDetailsMsg detail)).1).currentView = "details"
      ∧ ((update { mList with loading := true } (Msg.spaceDetailsMsg detail)).1).selectedSpace = detail
      ∧ ((update { mList with loading := true } (Msg.spaceDetailsMsg detail)).1).loading = false :=
  C1_select_starts_fetch mList rfl rfl (by decide)

/-- C2 counterexample: the state reached from startup by a space-list success
and one enter has `loading = true` with a detail fetch in flight, and a second
enter in that state issues another detail fetch — the dispatcher has no
loading guard. -/
theorem C2_counterexample :
    ((update (update initModel (Msg.spacesMsg [spaceA])).1 (Msg.key "enter")).1).loading = true
  ∧ (update ((update (update initModel (Msg.spacesMsg [spaceA])).1 (Msg.key "enter")).1)
        (Msg.key "enter")).2 = [Cmd.fetchSpaceDetails "a-id"] := by
  decide

/-- C2 (amended): the dispatcher issues only the quit command and the detail
fetch triggered by enter in the list view with a space row selected; the
loading flag is never consulted, so a select while a fetch is outstanding
issues a second fetch. -/
theorem C2_fetch_issuance (m : Model) (msg : Msg) (c : Cmd)
    (hc : c ∈ (update m msg).2) :
    c = Cmd.quit
  ∨ ∃ space, c = Cmd.fetchSpaceDetails space.id
      ∧ msg = Msg.key "enter" ∧ m.currentView = "list"
      ∧ m.items[m.cursor]? = some (Item.spaceItem space) := by
  cases msg with
  | key k =>
      simp only [update] at hc
      rcases updateKey_cmds m k with h | ⟨h, _⟩ | ⟨space, h, hk, hv, hsel⟩
      · rw [h] at hc
        simp at hc
      · rw [h] at hc
        simp at hc
        exact Or.inl hc
      · rw [h] at hc
        simp at hc
        exact Or.inr ⟨space, by rw [hc], by rw [hk], hv, hsel⟩
  | spacesMsg spaces => simp [update] at hc
  | spaceDetailsMsg space => simp [update] at hc
  | errMsg e => simp [update] at hc
  | windowSize w h => simp [update] at hc
  | tick => simp [update] at hc

/-- C2 witness at the concrete list view. -/
theorem C2_fetch_issuance_witness :
    Cmd.fetchSpaceDetails "a-id" = Cmd.quit
  ∨ ∃ space, Cmd.fetchSpaceDetails "a-id" = Cmd.fetchSpaceDetails space.id
      ∧ Msg.key "enter" = Msg.key "enter" ∧ mList.currentView = "list"
      ∧ mList.items[mList.cursor]? = some (Item.spaceItem space) :=
  C2_fetch_issuance mList (Msg.key "enter") (Cmd.fetchSpaceDetails "a-id") (by decide)

/-- C4 counterexample: with the credential variable empty the space-list
fetch command exits with status 1 but writes its diagnostic to standard
output, not standard error. -/
theorem C4_counterexample :
    fetchSpacesRun "" (Except.ok resp200) (Except.ok [])
      = Except.error { code := 1, stream := "stdout", message := "API key is not set" }
  ∧ "stdout" ≠ "stderr" :=
  ⟨rfl, by decide⟩

/-- C4 (amended): when the credential variable is empty the program prints
"API key is not set" on standard output and exits with status 1 — but this
happens inside the fetch command that `Init` hands to the event loop
(whatever the network or decode outcome), not in `main` before the loop. -/
theorem C4_missing_credential (net : Except String HttpResponse)
    (decoded : Except String (List Space)) :
    fetchSpacesRun "" net decoded
      = Except.error { code := 1, stream := "stdout", message := "API key is not set" }
  ∧ initStep.2 = [Cmd.fetchSpaces] :=
  ⟨rfl, rfl⟩

/-- C6: from the details view, back returns to the list view repopulating the
rows from the stored `spaces`; from the cards view it returns to the details
view; from the card-details view it returns to the cards view — and none of
these issues any command. -/
theorem C6_back_transitions (m : Model) :
    (m.currentView = "details" →
      update m (Msg.key "b")
        = ({ m with currentView := "list", listTitle := "Spaces",
                    items := spaceItems m.spaces }, []))
  ∧ (m.currentView = "cards" →
      update m (Msg.key "b")
        = ({ m with currentView := "details", listTitle := m.selectedSpace.name,
                    items := detailItems m.selectedSpace }, []))
  ∧ (m.currentView = "cardDetails" →
      update m (Msg.key "b")
        = ({ m with currentView := "cards", items := cardItems m.selectedSpace }, [])) := by
  refine ⟨?_, ?_, ?_⟩ <;> intro h <;> simp [update, updateKey, h]

/-- C6 witness at each of the three non-initial views. -/
theorem C6_back_transitions_witness :
    (update mDetails (Msg.key "b")
      = ({ mDetails with currentView := "list", listTitle := "Spaces",
                         items := spaceItems mDetails.spaces }, []))
  ∧ (update mCards (Msg.key "b")
      = ({ mCards with currentView := "details", listTitle := mCards.selectedSpace.name,
                       items := detailItems mCards.selectedSpace }, []))
  ∧ (update mCardDetails (Msg.key "b")
      = ({ mCardDetails with currentView := "cards",
                             items := cardItems mCardDetails.selectedSpace }, [])) :=
  ⟨(C6_back_transitions mDetails).1 rfl,
   (C6_back_transitions mCards).2.1 rfl,
   (C6_back_transitions mCardDetails).2.2 rfl⟩

/-- C8: the details view built from a fetched space holds exactly the two
rows ("Cards", "N cards") and ("Boxes", "M boxes"); card rows carry the
card's name and "(x, y)"; and for a 1-card, 0-box space the rows read
"1 cards" and "0 boxes" exactly. -/
theorem C8_row_formats (m : Model) (space : Space) :
    (((update m (Msg.spaceDetailsMsg space)).1).items.map (fun it => (it.title, it.descr))
      = [("Cards", toString space.cards.length ++ " cards"),
         ("Boxes", toString space.boxes.length ++ " boxes")])
  ∧ ((cardItems space).map (fun it => (it.title, it.descr))
      = space.cards.map (fun card =>
          (card.name, "(" ++ toString card.x ++ ", " ++ toString card.y ++ ")")))
  ∧ (((update m (Msg.spaceDetailsMsg spaceBeta)).1).items.map (fun it => (it.title, it.descr))
      = [("Cards", "1 cards"), ("Boxes", "0 boxes")]) := by
  refine ⟨rfl, ?_, rfl⟩
  simp only [cardItems, List.map_map]
  rfl

/-- C10: in the details view, enter on the "Cards" row moves to the cards
view populated from `selectedSpace`; enter on any other detail row (the
"Boxes" row) leaves the whole state unchanged and issues no command. -/
theorem C10_details_enter (m : Model) (hview : m.currentView = "details") :
    (∀ d, m.items[m.cursor]? = some (Item.detailItem "Cards" d) →
      update m (Msg.key "enter")
        = ({ m with currentView := "cards",
                    listTitle := m.selectedSpace.name ++ " → Cards",
                    items := cardItems m.selectedSpace }, []))
  ∧ (∀ t d, m.items[m.cursor]? = some (Item.detailItem t d) → t ≠ "Cards" →
      update m (Msg.key "enter") = (m, [])) := by
  constructor
  · intro d hsel
    simp [update, updateKey, hview, hsel]
  · intro t d hsel ht
    simp [update, updateKey, hview, hsel, ht]

/-- C10 witness: row 0 ("Cards") drills in; row 1 ("Boxes") is a no-op. -/
theorem C10_details_enter_witness :
    (update mDetails (Msg.key "enter")
      = ({ mDetails with currentView := "cards",
                         listTitle := mDetails.selectedSpace.name ++ " → Cards",
                         items := cardItems mDetails.selectedSpace }, []))
  ∧ (update { mDetails with cursor := 1 } (Msg.key "enter")
      = ({ mDetails with cursor := 1 }, [])) :=
  ⟨(C10_details_enter mDetails rfl).1 "1 cards" (by decide),
   (C10_details_enter { mDetails with cursor := 1 } rfl).2 "Boxes" "0 boxes"
     (by decide) (by decide)⟩

end Kinopio
